import Mathlib

/-!
Verification of the Database-Outreach-Bot candidate selector, row write-back,
DM-flow controller, message builder, send-retry policy, run loop and
environment validation.  Each definition is a shallow embedding of the
corresponding JavaScript function; machine-level concerns (Playwright pages,
the Google Sheets API, timing delays and logging) are abstracted away, and
environment variables become explicit parameters.

JavaScript strings are modeled as lists of characters (`Str`), with the
string methods used by the source (trim, toLowerCase, indexOf) embedded as
structurally recursive functions so that every definition evaluates inside
the kernel.
-/

/-- JavaScript strings, modeled as character lists. -/
abbrev Str := List Char

/-- JavaScript String.prototype.toLowerCase (on the characters the bot
handles): lowercase every character. -/
def jsToLower (cs : Str) : Str := cs.map Char.toLower

/-- JavaScript String.prototype.trim: drop whitespace from both ends. -/
def jsTrim (cs : Str) : Str :=
  ((cs.dropWhile Char.isWhitespace).reverse.dropWhile Char.isWhitespace).reverse

/-! ## Data model

One non-blank data row as structured by loadDatabaseRows (sheetsManager.js):
every field is a trimmed string (the username additionally lowercased there),
and rowIndex is the 1-based sheet row.  getEligibleRowsByStatus is also called
from the test harness with hand-built rows, so no normalization is assumed
here. -/

structure Row where
  rowIndex : Nat
  sessionId : Str
  username : Str
  source : Str
  status : Str
  message : Str
deriving Repr, DecidableEq

/-- The username normalization used as the dedup key throughout
databaseLoader.js: toLowerCase() followed by trim(). -/
def normalizeUsername (u : Str) : Str := jsTrim (jsToLower u)

/-- The dedup loop of getEligibleRowsByStatus (databaseLoader.js lines
167-189): walk the source-filtered rows in order, drop rows whose username
trims to empty, drop rows whose normalized username was already seen (the set
is seeded with excludeUsernames), and keep the first occurrence of every other
username. -/
def dedupByUsername (seen : List Str) : List Row → List Row
  | [] => []
  | r :: rest =>
    if jsTrim r.username = [] then
      dedupByUsername seen rest
    else
      let n := normalizeUsername r.username
      if n ∈ seen then
        dedupByUsername seen rest
      else
        r :: dedupByUsername (n :: seen) rest

/-- getEligibleRowsByStatus (databaseLoader.js lines 133-193): filter by
trimmed status (exact, case-sensitive match), then by trimmed+lowercased
source unless sourceMode is "all", deduplicate by normalized username
excluding excludeUsernames, and truncate to maxProcess (the MAX_PROCCESS
limit). -/
def getEligibleRowsByStatus (allRows : List Row) (status sourceMode : Str)
    (maxProcess : Nat) (excludeUsernames : List Str) : List Row :=
  let statusFiltered := allRows.filter (fun r => jsTrim r.status = status)
  let sourceFiltered :=
    if sourceMode = "all".data then statusFiltered
    else statusFiltered.filter (fun r => jsToLower (jsTrim r.source) = sourceMode)
  (dedupByUsername excludeUsernames sourceFiltered).take maxProcess

/-- The validated run configuration consumed by loadFilteredDatabase.  The
environment reads (ACTIVATE_STATUS, SOURCE_MODE, MAX_PROCCESS, MAX_DRAFT,
ENABLE_FALLBACK, FALLBACK_STATUS) become explicit fields; the caps are natural
numbers because validateMaxProcess and validateEnv only admit positive
integers. -/
structure SelectorConfig where
  activateStatus : Str
  sourceMode : Str
  maxProcess : Nat
  maxDraft : Nat
  enableFallback : Bool
  fallbackStatus : Str
deriving Repr, DecidableEq

/-- STAGE 2 of loadFilteredDatabase: the primary candidate pool. -/
def primaryEligible (c : SelectorConfig) (allRows : List Row) : List Row :=
  getEligibleRowsByStatus allRows c.activateStatus c.sourceMode c.maxProcess []

/-- STAGE 3 of loadFilteredDatabase: up to maxDraft rows from the primary
pool. -/
def selectedPrimary (c : SelectorConfig) (allRows : List Row) : List Row :=
  (primaryEligible c allRows).take c.maxDraft

/-- The Set of normalized usernames of the primary selection
(loadFilteredDatabase lines 246-248), modeled as a list. -/
def selectedPrimaryUsernames (c : SelectorConfig) (allRows : List Row) : List Str :=
  (selectedPrimary c allRows).map (fun r => normalizeUsername r.username)

/-- STAGE 4 of loadFilteredDatabase: the fallback candidate pool, built only
when fallback is enabled and the primary selection fell short of maxDraft;
usernames already selected from primary are excluded. -/
def fallbackEligible (c : SelectorConfig) (allRows : List Row) : List Row :=
  if c.enableFallback ∧ (selectedPrimary c allRows).length < c.maxDraft then
    getEligibleRowsByStatus allRows c.fallbackStatus c.sourceMode c.maxProcess
      (selectedPrimaryUsernames c allRows)
  else []

/-- STAGE 4 of loadFilteredDatabase, selection step: up to the remaining slots
from the fallback pool. -/
def selectedFallback (c : SelectorConfig) (allRows : List Row) : List Row :=
  (fallbackEligible c allRows).take (c.maxDraft - (selectedPrimary c allRows).length)

/-- The stats object returned by loadFilteredDatabase. -/
structure SelectorStats where
  primaryEligible : Nat
  fallbackEligible : Nat
  selectedPrimary : Nat
  selectedFallback : Nat
  totalSelected : Nat
deriving Repr, DecidableEq

/-- loadFilteredDatabase (databaseLoader.js lines 215-284), with the sheet
load and environment validation factored out into the allRows argument and
the SelectorConfig: primary selection followed by fallback selection, plus
the observability stats. -/
def loadFilteredDatabase (c : SelectorConfig) (allRows : List Row) :
    List Row × SelectorStats :=
  let finalRows := selectedPrimary c allRows ++ selectedFallback c allRows
  (finalRows,
   ⟨(primaryEligible c allRows).length,
    (fallbackEligible c allRows).length,
    (selectedPrimary c allRows).length,
    (selectedFallback c allRows).length,
    finalRows.length⟩)

/-! ## Lemmas about the dedup loop -/

/-- Every row surviving the dedup loop has a non-blank username. -/
theorem dedupByUsername_trim_ne (seen : List Str) (rows : List Row) :
    ∀ r ∈ dedupByUsername seen rows, jsTrim r.username ≠ [] := by
  induction rows generalizing seen with
  | nil => intro r hr; simp [dedupByUsername] at hr
  | cons x rest ih =>
    intro r hr
    by_cases hx : jsTrim x.username = []
    · rw [dedupByUsername, if_pos hx] at hr
      exact ih seen r hr
    · rw [dedupByUsername, if_neg hx] at hr
      by_cases hseen : normalizeUsername x.username ∈ seen
      · rw [if_pos hseen] at hr
        exact ih seen r hr
      · rw [if_neg hseen] at hr
        rcases List.mem_cons.mp hr with h | h
        · subst h; exact hx
        · exact ih _ r h

/-- No row surviving the dedup loop has its normalized username in the seed
set of already-seen usernames. -/
theorem dedupByUsername_not_seen (seen : List Str) (rows : List Row) :
    ∀ r ∈ dedupByUsername seen rows, normalizeUsername r.username ∉ seen := by
  induction rows generalizing seen with
  | nil => intro r hr; simp [dedupByUsername] at hr
  | cons x rest ih =>
    intro r hr
    by_cases hx : jsTrim x.username = []
    · rw [dedupByUsername, if_pos hx] at hr
      exact ih seen r hr
    · rw [dedupByUsername, if_neg hx] at hr
      by_cases hseen : normalizeUsername x.username ∈ seen
      · rw [if_pos hseen] at hr
        exact ih seen r hr
      · rw [if_neg hseen] at hr
        rcases List.mem_cons.mp hr with h | h
        · subst h; exact hseen
        · intro hmem
          exact ih _ r h (List.mem_cons_of_mem _ hmem)

/-- The dedup loop emits pairwise distinct normalized usernames. -/
theorem dedupByUsername_pairwise (seen : List Str) (rows : List Row) :
    (dedupByUsername seen rows).Pairwise
      (fun a b => normalizeUsername a.username ≠ normalizeUsername b.username) := by
  induction rows generalizing seen with
  | nil => simp [dedupByUsername]
  | cons x rest ih =>
    by_cases hx : jsTrim x.username = []
    · rw [dedupByUsername, if_pos hx]; exact ih seen
    · rw [dedupByUsername, if_neg hx]
      by_cases hseen : normalizeUsername x.username ∈ seen
      · rw [if_pos hseen]; exact ih seen
      · rw [if_neg hseen]
        refine List.Pairwise.cons ?_ (ih _)
        intro b hb hEq
        have := dedupByUsername_not_seen _ _ b hb
        exact this (hEq ▸ List.mem_cons_self _ _)

/-- The three dedup facts transported through the maxProcess truncation to
getEligibleRowsByStatus itself. -/
theorem getEligibleRowsByStatus_props (allRows : List Row) (status sourceMode : Str)
    (maxProcess : Nat) (excludeUsernames : List Str) :
    (∀ r ∈ getEligibleRowsByStatus allRows status sourceMode maxProcess excludeUsernames,
        jsTrim r.username ≠ [] ∧ normalizeUsername r.username ∉ excludeUsernames) ∧
    (getEligibleRowsByStatus allRows status sourceMode maxProcess excludeUsernames).Pairwise
      (fun a b => normalizeUsername a.username ≠ normalizeUsername b.username) := by
  unfold getEligibleRowsByStatus
  constructor
  · intro r hr
    have hmem := List.mem_of_mem_take hr
    exact ⟨dedupByUsername_trim_ne _ _ r hmem, dedupByUsername_not_seen _ _ r hmem⟩
  · exact (dedupByUsername_pairwise _ _).sublist (List.take_sublist _ _)

/-- Facts about the truncated primary selection. -/
theorem selectedPrimary_props (c : SelectorConfig) (allRows : List Row) :
    (∀ r ∈ selectedPrimary c allRows, jsTrim r.username ≠ []) ∧
    (selectedPrimary c allRows).Pairwise
      (fun a b => normalizeUsername a.username ≠ normalizeUsername b.username) := by
  constructor
  · intro r hr
    have hmem : r ∈ primaryEligible c allRows := List.mem_of_mem_take hr
    exact ((getEligibleRowsByStatus_props allRows c.activateStatus c.sourceMode
      c.maxProcess []).1 r hmem).1
  · exact ((getEligibleRowsByStatus_props allRows c.activateStatus c.sourceMode
      c.maxProcess []).2).sublist (List.take_sublist _ _)

/-- Facts about the fallback pool: non-blank usernames, exclusion of the
already selected primary usernames, and pairwise distinctness. -/
theorem fallbackEligible_props (c : SelectorConfig) (allRows : List Row) :
    (∀ r ∈ fallbackEligible c allRows,
        jsTrim r.username ≠ [] ∧
        normalizeUsername r.username ∉ selectedPrimaryUsernames c allRows) ∧
    (fallbackEligible c allRows).Pairwise
      (fun a b => normalizeUsername a.username ≠ normalizeUsername b.username) := by
  unfold fallbackEligible
  split
  · exact getEligibleRowsByStatus_props _ _ _ _ _
  · refine ⟨?_, by simp⟩
    intro r hr
    simp at hr

/-- The fallback selection is contained in the fallback pool. -/
theorem selectedFallback_subset (c : SelectorConfig) (allRows : List Row) :
    ∀ r ∈ selectedFallback c allRows, r ∈ fallbackEligible c allRows := by
  intro r hr
  exact List.mem_of_mem_take hr

/-- C1: for every row set and configuration, the worklist returned by the
candidate selector has length at most maxDraft, contains no two entries whose
usernames coincide after lowercasing and trimming, and contains no entry
whose username is empty or whitespace-only. -/
theorem worklist_invariants (c : SelectorConfig) (allRows : List Row) :
    (loadFilteredDatabase c allRows).1.length ≤ c.maxDraft ∧
    (loadFilteredDatabase c allRows).1.Pairwise
      (fun a b => normalizeUsername a.username ≠ normalizeUsername b.username) ∧
    ∀ r ∈ (loadFilteredDatabase c allRows).1, jsTrim r.username ≠ [] := by
  have hfst : (loadFilteredDatabase c allRows).1
      = selectedPrimary c allRows ++ selectedFallback c allRows := rfl
  refine ⟨?_, ?_, ?_⟩
  · rw [hfst, List.length_append]
    have h1 : (selectedPrimary c allRows).length ≤ c.maxDraft := by
      unfold selectedPrimary
      rw [List.length_take]
      exact Nat.min_le_left _ _
    have h2 : (selectedFallback c allRows).length
        ≤ c.maxDraft - (selectedPrimary c allRows).length := by
      unfold selectedFallback
      rw [List.length_take]
      exact Nat.min_le_left _ _
    omega
  · rw [hfst, List.pairwise_append]
    refine ⟨(selectedPrimary_props c allRows).2, ?_, ?_⟩
    · exact ((fallbackEligible_props c allRows).2).sublist (List.take_sublist _ _)
    · intro a ha b hb hEq
      have hb2 := ((fallbackEligible_props c allRows).1 b
        (selectedFallback_subset c allRows b hb)).2
      apply hb2
      rw [← hEq]
      unfold selectedPrimaryUsernames
      exact List.mem_map_of_mem _ ha
  · intro r hr
    rw [hfst] at hr
    rcases List.mem_append.mp hr with h | h
    · exact (selectedPrimary_props c allRows).1 r h
    · exact ((fallbackEligible_props c allRows).1 r
        (selectedFallback_subset c allRows r h)).1

/-- Closed instance of worklist_invariants at a concrete row set and
configuration. -/
theorem worklist_invariants_witness :
    (loadFilteredDatabase
      ⟨"Pending".data, "all".data, 100, 3, true, "Secondary".data⟩
      [⟨2, [], "user1".data, "likes".data, "Pending".data, []⟩,
       ⟨3, [], "user2".data, "likes".data, "Secondary".data, []⟩]).1.length ≤ 3 :=
  (worklist_invariants
    ⟨"Pending".data, "all".data, 100, 3, true, "Secondary".data⟩
    [⟨2, [], "user1".data, "likes".data, "Pending".data, []⟩,
     ⟨3, [], "user2".data, "likes".data, "Secondary".data, []⟩]).1

/-- C4: the worklist is exactly the primary selection followed by the
fallback selection (so every primary row precedes every fallback row), and no
normalized username selected from the primary pool reappears among the
fallback-selected rows. -/
theorem primary_precedes_fallback (c : SelectorConfig) (allRows : List Row) :
    (loadFilteredDatabase c allRows).1
      = selectedPrimary c allRows ++ selectedFallback c allRows ∧
    ∀ b ∈ selectedFallback c allRows,
      normalizeUsername b.username ∉
        (selectedPrimary c allRows).map (fun r => normalizeUsername r.username) := by
  refine ⟨rfl, ?_⟩
  intro b hb
  exact ((fallbackEligible_props c allRows).1 b
    (selectedFallback_subset c allRows b hb)).2

/-- Closed instance of primary_precedes_fallback: on a concrete store the
fallback-selected row user2 is not among the primary-selected normalized
usernames. -/
theorem primary_precedes_fallback_witness :
    normalizeUsername ("user2".data) ∉
      (selectedPrimary
        ⟨"Pending".data, "all".data, 100, 2, true, "Secondary".data⟩
        [⟨2, [], "user1".data, "likes".data, "Pending".data, []⟩,
         ⟨3, [], "user2".data, "likes".data, "Secondary".data, []⟩]).map
        (fun r => normalizeUsername r.username) :=
  (primary_precedes_fallback
    ⟨"Pending".data, "all".data, 100, 2, true, "Secondary".data⟩
    [⟨2, [], "user1".data, "likes".data, "Pending".data, []⟩,
     ⟨3, [], "user2".data, "likes".data, "Secondary".data, []⟩]).2
    ⟨3, [], "user2".data, "likes".data, "Secondary".data, []⟩ (by decide)

/-- The row store of the fallback scenario in the spec and in CLAIMS C5:
statuses [Pending, Pending, Secondary, Secondary]. -/
def c5Rows : List Row :=
  [⟨2, [], "user1".data, "likes".data, "Pending".data, []⟩,
   ⟨3, [], "user2".data, "likes".data, "Pending".data, []⟩,
   ⟨4, [], "user3".data, "likes".data, "Secondary".data, []⟩,
   ⟨5, [], "user4".data, "likes".data, "Secondary".data, []⟩]

/-- The configuration of the fallback scenario: per-pool cap 100, worklist
cap 3, fallback enabled with fallback status Secondary, source mode all. -/
def c5Config : SelectorConfig :=
  ⟨"Pending".data, "all".data, 100, 3, true, "Secondary".data⟩

/-- C5 counterexample: on the stated input the selector picks BOTH Pending
rows from the primary pool, so selectedPrimary is 2, not 1 as the claim
states (the claimed output belongs to a store with a single Pending row). -/
theorem c5_counterexample :
    (loadFilteredDatabase c5Config c5Rows).2.selectedPrimary = 2 ∧ (2 : Nat) ≠ 1 := by
  exact ⟨by decide, by decide⟩

/-- C5 amended: on statuses [Pending, Pending, Secondary, Secondary] with
per-pool cap 100, worklist cap 3 and fallback status Secondary, the selector
returns worklist [row0(Pending), row1(Pending), row2(Secondary)] (2 primary +
1 fallback) with stats primaryEligible 2, fallbackEligible 2, selectedPrimary
2, selectedFallback 1, totalSelected 3. -/
theorem c5_amended :
    (loadFilteredDatabase c5Config c5Rows).1 =
      [⟨2, [], "user1".data, "likes".data, "Pending".data, []⟩,
       ⟨3, [], "user2".data, "likes".data, "Pending".data, []⟩,
       ⟨4, [], "user3".data, "likes".data, "Secondary".data, []⟩] ∧
    (loadFilteredDatabase c5Config c5Rows).2 = ⟨2, 2, 2, 1, 3⟩ := by
  exact ⟨by decide, by decide⟩

/-! ## Row write-back (sheetsManager.js updateDraftData)

Column order (0-based indices, sheetsManager.js COLUMN_INDICES):
Session ID 0, Date Added 1, Username 2, Source 3, Date Sent 4, Message 5,
Status 6, Name 7, Bio 8. -/

/-- The padding step of updateDraftData (lines 337-339): extend the row read
from the sheet to at least 7 cells with empty strings. -/
def padTo7 (row : List Str) : List Str :=
  row ++ List.replicate (7 - row.length) []

/-- updateDraftData (sheetsManager.js lines 289-386), restricted to its pure
row transformation: the currentRow argument models the row read back from the
sheet just before the write (the argument validations and the two API calls
are outside the store model).  Session ID (cell 0) and Status (cell 6) are
always overwritten; Date Sent (cell 4) and Message (cell 5) are taken from
the current row when status is "Send Failed" or "Skipped" (the
preserveDateAndMessage branch, where a missing cell falls back to the empty
string) and from the provided arguments otherwise; all other cells are kept
from the current row. -/
def updateDraftData (currentRow : List Str)
    (sessionId dateSent message status : Str) : List Str :=
  let cur := padTo7 currentRow
  let u0 := cur.set 0 sessionId
  let preserveDateAndMessage :=
    status = "Send Failed".data ∨ status = "Skipped".data
  let u1 :=
    if preserveDateAndMessage then
      (u0.set 4 (cur.getD 4 [])).set 5 (cur.getD 5 [])
    else
      (u0.set 4 dateSent).set 5 message
  u1.set 6 status

/-- A stored row holding a previously drafted message and sent timestamp. -/
def c2StoredRow : List Str :=
  ["777".data, "2024-01-01".data, "user1".data, "likes".data,
   "2024-02-02T10:00:00Z".data, "hello there".data, "Drafted".data]

/-- C2 failing input, evaluated: a write-back with status "Failed" (as issued
by main.js with empty dateSent and message arguments) OVERWRITES the stored
Date Sent and Message cells with the empty string instead of preserving them;
the preserve branch covers only "Send Failed" and "Skipped". -/
theorem c2_failed_write_overwrites :
    (updateDraftData c2StoredRow "1700000000000".data [] [] "Failed".data).getD 4 []
        = [] ∧
    (updateDraftData c2StoredRow "1700000000000".data [] [] "Failed".data).getD 5 []
        = [] ∧
    c2StoredRow.getD 4 [] = "2024-02-02T10:00:00Z".data ∧
    c2StoredRow.getD 5 [] = "hello there".data ∧
    "hello there".data ≠ ([] : Str) := by
  exact ⟨by decide, by decide, by decide, by decide, by decide⟩

/-! ## Per-target tab lifecycle (main.js run loop, lines 366-551) -/

/-- The three shapes of a processUser result consumed by the run loop:
skipped (existing conversation), success carrying the draftResult sent flag
(meaningful only when SEND_MESSAGE is on), and failure (processUser returned
success false or threw). -/
inductive ProcessResult where
  | skipped
  | success (sent : Bool)
  | failure
deriving Repr, DecidableEq

/-- The terminal outcome written to the sheet for a processed target
(main.js lines 391-499): Skipped, Sent or Send Failed in send mode, Drafted
in draft-only mode, Failed on any failure. -/
inductive Outcome where
  | drafted
  | sent
  | sendFailed
  | skipped
  | failed
deriving Repr, DecidableEq

/-- The status selection of the run loop (main.js lines 391-499). -/
def outcomeOf (sendMessage : Bool) : ProcessResult → Outcome
  | .skipped => .skipped
  | .success s =>
      if sendMessage then (if s then .sent else .sendFailed) else .drafted
  | .failure => .failed

/-- Whether the run loop closes the target tab by the end of the iteration
(main.js lines 391-531).  Skipped targets close their tab immediately.  For
the other targets the decision replays the draftingSucceeded / messageSent
bookkeeping: on a successful processUser, draftingSucceeded is the sent flag
in send mode and true in draft-only mode - except that when the sheet update
throws (writeOk false) it is set to true with messageSent left false; on a
failure both flags are false.  Send mode closes the tab iff draftingSucceeded
and messageSent both hold; draft-only mode closes it iff draftingSucceeded is
false. -/
def tabClosed (sendMessage writeOk : Bool) : ProcessResult → Bool
  | .skipped => true
  | .success s =>
      let draftingSucceeded :=
        if writeOk then (if sendMessage then s else true) else true
      let messageSent := if writeOk && sendMessage then s else false
      if sendMessage then draftingSucceeded && messageSent
      else !draftingSucceeded
  | .failure =>
      let draftingSucceeded := false
      let messageSent := false
      if sendMessage then draftingSucceeded && messageSent
      else !draftingSucceeded

/-- C3 failing input, evaluated: with send mode enabled and the sheet write
succeeding, a target whose terminal outcome is Failed keeps its tab OPEN (the
send-mode branch closes a tab only when draftingSucceeded and messageSent
both hold), while the claim, the spec and the code comments at main.js lines
479 and 497 say the tab is closed on Failed. -/
theorem c3_tab_kept_open_on_failed_send_mode :
    outcomeOf true ProcessResult.failure = Outcome.failed ∧
    tabClosed true true ProcessResult.failure = false := by
  exact ⟨rfl, rfl⟩

/-! ## Send-and-confirm retry policy (messageDrafter.js draftMessage STEP 7,
lines 229-277) -/

/-- Result of the submission phase: the sent flag returned by draftMessage
and the number of sendMessage invocations (ENTER presses) performed. -/
structure SendOutcome where
  sent : Bool
  attempts : Nat
deriving Repr, DecidableEq

/-- The submission phase of draftMessage, as a function of the outcomes of
the underlying UI operations: send1 / send2 are the results of the first and
second sendMessage call, confirm1 / confirm2 the results of the first and
second confirmMessageSent call.  The code sends, confirms, and on a failed
confirmation retries the send-plus-confirm cycle exactly once; a failed
ENTER press aborts immediately. -/
def draftMessageSendPhase (send1 confirm1 send2 confirm2 : Bool) : SendOutcome :=
  if send1 then
    if confirm1 then ⟨true, 1⟩
    else
      if send2 then
        if confirm2 then ⟨true, 2⟩ else ⟨false, 2⟩
      else ⟨false, 2⟩
  else ⟨false, 1⟩

/-- C6: the submission phase performs at most 2 attempts; if the first
confirmation fails it retries exactly once; if the first cycle fails and the
retry confirms, the result is sent with exactly 2 attempts; after a second
failed confirmation it gives up unsent. -/
theorem send_retry_policy (send1 confirm1 send2 confirm2 : Bool) :
    (draftMessageSendPhase send1 confirm1 send2 confirm2).attempts ≤ 2 ∧
    (send1 = true → confirm1 = false →
      (draftMessageSendPhase send1 confirm1 send2 confirm2).attempts = 2) ∧
    (send1 = true → confirm1 = false → send2 = true → confirm2 = true →
      draftMessageSendPhase send1 confirm1 send2 confirm2 = ⟨true, 2⟩) ∧
    (send1 = true → confirm1 = false → confirm2 = false →
      (draftMessageSendPhase send1 confirm1 send2 confirm2).sent = false) := by
  revert send1 confirm1 send2 confirm2
  decide

/-- Closed instance of send_retry_policy: first confirmation misses, the
retry confirms, so the message is sent in exactly 2 attempts. -/
theorem send_retry_policy_witness :
    draftMessageSendPhase true false true true = ⟨true, 2⟩ :=
  (send_retry_policy true false true true).2.2.1 rfl rfl rfl rfl

/-! ## DM opening controller (dmFlowController.js openDMController,
lines 13-72) -/

/-- The result shape shared by both opening flows: a success flag plus a
reason / error detail string. -/
structure FlowResult where
  success : Bool
  detail : String
deriving Repr, DecidableEq

/-- How one opening flow behaves when invoked: either it returns a result or
it throws. -/
inductive FlowBehavior where
  | ret (r : FlowResult)
  | crash (msg : String)
deriving Repr, DecidableEq

/-- The try/catch wrapper openDMController puts around each flow call: an
exception is caught and converted into a failure result carrying the error
message, never propagated. -/
def interpFlow : FlowBehavior → FlowResult
  | .ret r => r
  | .crash msg => ⟨false, msg⟩

/-- The controller result: overall success, which flow was used ("flow1",
"flow2" or "none"), and the per-flow results (flow2 is null when flow 1
already succeeded). -/
structure ControllerResult where
  success : Bool
  used : String
  flow1 : Option FlowResult
  flow2 : Option FlowResult
deriving Repr, DecidableEq

/-- openDMController (dmFlowController.js lines 13-72) as a function of the
two flow behaviors: try flow 1; if it reports success stop there; otherwise
try flow 2; if neither succeeds return the aggregate failure carrying both
results. -/
def openDMController (f1 f2 : FlowBehavior) : ControllerResult :=
  let flow1Result := interpFlow f1
  if flow1Result.success then
    ⟨true, "flow1", some flow1Result, none⟩
  else
    let flow2Result := interpFlow f2
    if flow2Result.success then
      ⟨true, "flow2", some flow1Result, some flow2Result⟩
    else
      ⟨false, "none", some flow1Result, some flow2Result⟩

/-- C7: flow 1 is decisive when it succeeds (flow 2 is then not consulted:
its slot is null); when flow 1 fails and flow 2 succeeds the overall result
is success via flow2; when both fail the overall result is a failure carrying
both flow results; and a thrown exception is converted into a failure result
(so it can never propagate). -/
theorem openDM_strategy_order (f1 f2 : FlowBehavior) :
    ((interpFlow f1).success = true →
      openDMController f1 f2 = ⟨true, "flow1", some (interpFlow f1), none⟩) ∧
    ((interpFlow f1).success = false → (interpFlow f2).success = true →
      (openDMController f1 f2).success = true ∧
      (openDMController f1 f2).used = "flow2") ∧
    ((interpFlow f1).success = false → (interpFlow f2).success = false →
      openDMController f1 f2
        = ⟨false, "none", some (interpFlow f1), some (interpFlow f2)⟩) ∧
    (∀ msg, interpFlow (FlowBehavior.crash msg) = ⟨false, msg⟩) := by
  refine ⟨?_, ?_, ?_, fun _ => rfl⟩
  · intro h1
    unfold openDMController
    rw [if_pos h1]
  · intro h1 h2
    unfold openDMController
    rw [if_neg (by simp [h1]), if_pos h2]
    exact ⟨rfl, rfl⟩
  · intro h1 h2
    unfold openDMController
    rw [if_neg (by simp [h1]), if_neg (by simp [h2])]

/-- Closed instance of openDM_strategy_order: flow 1 crashes (exception
caught, converted to failure), flow 2 succeeds, so the controller reports
success with strategy flow2. -/
theorem openDM_strategy_order_witness :
    (openDMController (FlowBehavior.crash "boom")
      (FlowBehavior.ret ⟨true, "dm opened"⟩)).success = true ∧
    (openDMController (FlowBehavior.crash "boom")
      (FlowBehavior.ret ⟨true, "dm opened"⟩)).used = "flow2" :=
  (openDM_strategy_order (FlowBehavior.crash "boom")
    (FlowBehavior.ret ⟨true, "dm opened"⟩)).2.1 rfl rfl

/-! ## Message builder (messageBuilder.js buildDraftMessage, lines 116-146) -/

/-- JavaScript String.prototype.indexOf for a single-character needle (the
separator is a one-character string at every call site), as an option-valued
first-occurrence index. -/
def firstSepIndex (separator : Char) : Str → Option Nat
  | [] => none
  | c :: cs =>
      if c = separator then some 0
      else (firstSepIndex separator cs).map (· + 1)

/-- buildDraftMessage (messageBuilder.js lines 116-146): an empty template is
returned as-is (the falsy-template guard); otherwise both name and template
are trimmed; an empty trimmed name yields the trimmed template; otherwise the
trimmed name, preceded by a space, is inserted before the first occurrence of
the separator in the trimmed template, or - when the separator is absent -
the result is name, separator, space, trimmed template. -/
def buildDraftMessage (firstName messageTemplate : Str) (separator : Char) : Str :=
  if messageTemplate = [] then messageTemplate
  else
    let trimmedFirstName := jsTrim firstName
    let trimmedTemplate := jsTrim messageTemplate
    if trimmedFirstName = [] then trimmedTemplate
    else
      match firstSepIndex separator trimmedTemplate with
      | none => trimmedFirstName ++ [separator, ' '] ++ trimmedTemplate
      | some i =>
          let beforeSeparator := trimmedTemplate.take i
          let afterSeparator := trimmedTemplate.drop i
          beforeSeparator ++ (' ' :: trimmedFirstName) ++ afterSeparator

/-- firstSepIndex finds nothing exactly when the separator does not occur. -/
theorem firstSepIndex_eq_none_iff (separator : Char) (cs : Str) :
    firstSepIndex separator cs = none ↔ separator ∉ cs := by
  induction cs with
  | nil => simp [firstSepIndex]
  | cons c cs ih =>
    by_cases h : c = separator
    · simp [firstSepIndex, h]
    · rw [List.mem_cons]
      constructor
      · intro hn hmem
        rw [firstSepIndex, if_neg h] at hn
        have hcs : firstSepIndex separator cs = none := by
          cases hfi : firstSepIndex separator cs with
          | none => rfl
          | some i => rw [hfi] at hn; simp at hn
        rcases hmem with hc | hc
        · exact h hc.symm
        · exact (ih.mp hcs) hc
      · intro hn
        rw [firstSepIndex, if_neg h, ih.mpr (fun hm => hn (Or.inr hm))]
        rfl

/-- firstSepIndex on a decomposition whose left part avoids the separator and
whose right part starts with it returns the length of the left part. -/
theorem firstSepIndex_decomp (separator : Char) (b a : Str)
    (hb : separator ∉ b) (ha : a.head? = some separator) :
    firstSepIndex separator (b ++ a) = some b.length := by
  induction b with
  | nil =>
    cases a with
    | nil => simp at ha
    | cons x t =>
      have hx : x = separator := by simpa using ha
      simp [firstSepIndex, hx]
  | cons y b ih =>
    have hy : y ≠ separator := fun h => hb (h ▸ List.mem_cons_self _ _)
    have hb2 : separator ∉ b := fun h => hb (List.mem_cons_of_mem _ h)
    rw [List.cons_append, firstSepIndex, if_neg hy, ih hb2]
    rfl

/-- C8 counterexample: with an empty first name the template is NOT returned
verbatim - buildDraftMessage returns the TRIMMED template, so a template with
leading whitespace comes back changed. -/
theorem c8_counterexample :
    buildDraftMessage [] " Hey! Hi.".data '!' = "Hey! Hi.".data ∧
    "Hey! Hi.".data ≠ " Hey! Hi.".data := by
  exact ⟨by decide, by decide⟩

/-- C8 amended: for a non-empty template, buildDraftMessage first trims both
the name and the template; an empty trimmed name yields the trimmed template;
a non-empty name is inserted (with a leading space) before the first
separator occurrence of the trimmed template, characterized by any
decomposition whose left part avoids the separator and whose right part
starts with it; when the separator is absent the result is name, separator,
space, trimmed template; and the spec scenario evaluates to
"Hey John! Thanks for following.". -/
theorem buildDraftMessage_spec (firstName messageTemplate : Str) (separator : Char)
    (hne : messageTemplate ≠ []) :
    (jsTrim firstName = [] →
      buildDraftMessage firstName messageTemplate separator = jsTrim messageTemplate) ∧
    (jsTrim firstName ≠ [] → separator ∉ jsTrim messageTemplate →
      buildDraftMessage firstName messageTemplate separator
        = jsTrim firstName ++ [separator, ' '] ++ jsTrim messageTemplate) ∧
    (jsTrim firstName ≠ [] → ∀ b a, jsTrim messageTemplate = b ++ a →
      separator ∉ b → a.head? = some separator →
      buildDraftMessage firstName messageTemplate separator
        = b ++ (' ' :: jsTrim firstName) ++ a) ∧
    buildDraftMessage "John".data "Hey! Thanks for following.".data '!'
      = "Hey John! Thanks for following.".data := by
  refine ⟨?_, ?_, ?_, by decide⟩
  · intro h
    unfold buildDraftMessage
    rw [if_neg hne, if_pos h]
  · intro hn hsep
    unfold buildDraftMessage
    rw [if_neg hne, if_neg hn, (firstSepIndex_eq_none_iff separator _).mpr hsep]
  · intro hn b a hdecomp hb ha
    unfold buildDraftMessage
    rw [if_neg hne, if_neg hn]
    have hidx : firstSepIndex separator (jsTrim messageTemplate) = some b.length := by
      rw [hdecomp]
      exact firstSepIndex_decomp separator b a hb ha
    rw [hidx]
    simp only [hdecomp, List.take_left, List.drop_left]

/-- Closed instance of buildDraftMessage_spec: the spec scenario. -/
theorem buildDraftMessage_spec_witness :
    buildDraftMessage "John".data "Hey! Thanks for following.".data '!'
      = "Hey John! Thanks for following.".data :=
  (buildDraftMessage_spec "John".data "Hey! Thanks for following.".data '!'
    (by decide)).2.2.2

/-! ## Run loop counters and termination (main.js lines 357-371 and 536-551) -/

/-- The run counters of STEP 5 of main.js: draftedCount, sentCount,
skippedCount, errorCount, sendFailedCount. -/
structure RunCounters where
  drafted : Nat
  sent : Nat
  skipped : Nat
  errors : Nat
  sendFailed : Nat
deriving Repr, DecidableEq

/-- How one processed target updates the counters (main.js lines 391-499):
skipped targets bump skippedCount; a success bumps sentCount or
sendFailedCount in send mode and draftedCount in draft-only mode (the bump
happens before the sheet update is attempted); failures bump errorCount.  A
failing sheet update additionally bumps errorCount but never the counter the
termination predicate reads, so store-write failures are not modeled here. -/
def applyOutcome (sendMessage : Bool) (c : RunCounters) : ProcessResult → RunCounters
  | .skipped => ⟨c.drafted, c.sent, c.skipped + 1, c.errors, c.sendFailed⟩
  | .success s =>
      if sendMessage then
        if s then ⟨c.drafted, c.sent + 1, c.skipped, c.errors, c.sendFailed⟩
        else ⟨c.drafted, c.sent, c.skipped, c.errors, c.sendFailed + 1⟩
      else ⟨c.drafted + 1, c.sent, c.skipped, c.errors, c.sendFailed⟩
  | .failure => ⟨c.drafted, c.sent, c.skipped, c.errors + 1, c.sendFailed⟩

/-- The termination predicate checked before each iteration (main.js lines
366-371): in send mode the run stops when sentCount has reached MAX_DRAFT,
otherwise when draftedCount has. -/
def limitReached (sendMessage : Bool) (maxDraft : Nat) (c : RunCounters) : Bool :=
  if sendMessage then decide (maxDraft ≤ c.sent) else decide (maxDraft ≤ c.drafted)

/-- The run loop of main.js STEP 5 (lines 366-551), restricted to counter
bookkeeping: given the processUser result of each worklist entry in order,
it returns the list of results actually processed.  The loop checks
limitReached before each iteration; the second check at the end of an
iteration (lines 536-551) only anticipates the next pre-check and does not
change which targets are processed. -/
def runLoop (sendMessage : Bool) (maxDraft : Nat) (c : RunCounters) :
    List ProcessResult → List ProcessResult
  | [] => []
  | r :: rest =>
    if limitReached sendMessage maxDraft c then []
    else r :: runLoop sendMessage maxDraft (applyOutcome sendMessage c r) rest

/-- Counter state after a list of processed results. -/
def countersAfter (sendMessage : Bool) (c : RunCounters)
    (rs : List ProcessResult) : RunCounters :=
  rs.foldl (applyOutcome sendMessage) c

/-- Before every processed target, the termination predicate evaluated on the
counters accumulated so far is false. -/
theorem runLoop_not_limit (sendMessage : Bool) (maxDraft : Nat)
    (results : List ProcessResult) :
    ∀ cInit : RunCounters, ∀ i,
      i < (runLoop sendMessage maxDraft cInit results).length →
      limitReached sendMessage maxDraft
        (countersAfter sendMessage cInit
          ((runLoop sendMessage maxDraft cInit results).take i)) = false := by
  induction results with
  | nil => intro c i hi; simp [runLoop] at hi
  | cons r rest ih =>
    intro c i hi
    by_cases hl : limitReached sendMessage maxDraft c = true
    · rw [runLoop, if_pos hl] at hi
      simp at hi
    · have hl2 : limitReached sendMessage maxDraft c = false := by
        cases h : limitReached sendMessage maxDraft c
        · rfl
        · exact absurd h hl
      rw [runLoop, if_neg hl] at hi ⊢
      cases i with
      | zero =>
        rw [List.take_zero]
        exact hl2
      | succ j =>
        rw [List.length_cons] at hi
        rw [List.take_succ_cons]
        exact ih (applyOutcome sendMessage c r) j (Nat.lt_of_succ_lt_succ hi)

/-- C9: starting from zero counters, the run loop checks its termination
predicate before each iteration - the predicate is false at the state
preceding every processed target, so no target is processed once the sent
counter (send mode) or the drafted counter (draft-only mode) has reached
maxDraft; moreover in send mode no outcome (Sent, SendFailed, Skipped or
Failed) ever increments the drafted counter the draft-mode check reads. -/
theorem run_loop_termination (sendMessage : Bool) (maxDraft : Nat)
    (results : List ProcessResult) :
    (∀ i, i < (runLoop sendMessage maxDraft ⟨0, 0, 0, 0, 0⟩ results).length →
      limitReached sendMessage maxDraft
        (countersAfter sendMessage ⟨0, 0, 0, 0, 0⟩
          ((runLoop sendMessage maxDraft ⟨0, 0, 0, 0, 0⟩ results).take i)) = false) ∧
    (∀ (c : RunCounters) (r : ProcessResult),
      (applyOutcome true c r).drafted = c.drafted) := by
  refine ⟨fun i hi => runLoop_not_limit sendMessage maxDraft results _ i hi, ?_⟩
  intro c r
  cases r with
  | skipped => rfl
  | success s => cases s <;> rfl
  | failure => rfl

/-- Closed instance of run_loop_termination: send mode with cap 1 and two
successful sends processes the first target with the predicate still false. -/
theorem run_loop_termination_witness :
    limitReached true 1
      (countersAfter true ⟨0, 0, 0, 0, 0⟩
        ((runLoop true 1 ⟨0, 0, 0, 0, 0⟩
          [ProcessResult.success true, ProcessResult.success true]).take 0)) = false :=
  (run_loop_termination true 1
    [ProcessResult.success true, ProcessResult.success true]).1 0 (by decide)

/-! ## ACTIVATE_STATUS handling (databaseLoader.js lines 73-82 and
envValidator.js lines 121-125) -/

/-- validateActivateStatus (databaseLoader.js lines 73-82): a missing, empty
or whitespace-only ACTIVATE_STATUS defaults to "Pending" (no error is ever
raised - the function is total); any other value is returned trimmed.  The
environment variable is modeled as an optional string (none = unset; the JS
non-string case cannot arise for environment variables and is folded into
none). -/
def validateActivateStatus (activateStatus : Option Str) : Str :=
  match activateStatus with
  | none => "Pending".data
  | some s => if jsTrim s = [] then "Pending".data else jsTrim s

/-- The ACTIVATE_STATUS clause of validateEnv (envValidator.js lines
121-125): true exactly when the value is missing, empty or whitespace-only,
in which case validateEnv records the error "ACTIVATE_STATUS is required and
must be a non-empty string" and ultimately throws. -/
def activateStatusRejected (activateStatus : Option Str) : Bool :=
  match activateStatus with
  | none => true
  | some s => decide (jsTrim s = [])

/-- C10: the selector path never treats a missing ACTIVATE_STATUS as fatal:
exactly on the values validateEnv rejects as errors (unset, empty or
whitespace-only), validateActivateStatus returns the default "Pending", and
on every other value it returns the trimmed ACTIVATE_STATUS. -/
theorem validateActivateStatus_default (v : Option Str) :
    (activateStatusRejected v = true →
      validateActivateStatus v = "Pending".data) ∧
    (activateStatusRejected v = false →
      ∃ s, v = some s ∧ jsTrim s ≠ [] ∧ validateActivateStatus v = jsTrim s) := by
  cases v with
  | none =>
    refine ⟨fun _ => rfl, fun h => ?_⟩
    simp [activateStatusRejected] at h
  | some s =>
    by_cases h : jsTrim s = []
    · refine ⟨fun _ => ?_, fun hr => ?_⟩
      · simp [validateActivateStatus, if_pos h]
      · simp [activateStatusRejected, h] at hr
    · refine ⟨fun hr => ?_, fun _ => ?_⟩
      · simp [activateStatusRejected, h] at hr
      · exact ⟨s, rfl, h, by simp [validateActivateStatus, if_neg h]⟩

/-- Closed instance of validateActivateStatus_default: an unset
ACTIVATE_STATUS yields the default "Pending". -/
theorem validateActivateStatus_default_witness :
    validateActivateStatus none = "Pending".data :=
  (validateActivateStatus_default none).1 rfl
